import Mathlib

/-
Shallow embedding of the CRM-AI-outbound-Caller backend (TypeScript sources
under src/).  Timestamps are modelled as natural numbers of seconds; database
tables are lists of row structures; each service method becomes a pure
function on an explicit database state.  Fallible operations return
`Except String`.  Reason strings keep the fixed prefix of the source template
strings; the interpolated counters / timestamps the source appends are elided.
-/

namespace CRM

/-- Timestamps are seconds since an arbitrary epoch. -/
abbrev Time := Nat

/-- One hour, in the `Time` unit. -/
def hourTicks : Nat := 3600

/-- CallEligibilityService.MIN_CALL_COOLDOWN_HOURS. -/
def MIN_CALL_COOLDOWN_HOURS : Nat := 24

/-- CallEligibilityService.MAX_CALLS_PER_DAY. -/
def MAX_CALLS_PER_DAY : Nat := 3

/-- CallEligibilityService.MAX_CALLS_PER_WEEK. -/
def MAX_CALLS_PER_WEEK : Nat := 10

/-- JavaScript `v || null` on an optional string parameter: an empty string is
falsy, so it is stored as NULL. -/
def orNullStr (v : Option String) : Option String :=
  match v with
  | some s => if s = "" then none else some s
  | none => none

/-- JavaScript `v || null` on an optional numeric parameter: `0` is falsy. -/
def orNullInt (v : Option Int) : Option Int :=
  match v with
  | some n => if n = 0 then none else some n
  | none => none

/-- JavaScript truthiness test `if (v)` on an optional string: undefined and
the empty string are falsy. -/
def isTruthyStr (v : Option String) : Bool :=
  match v with
  | some s => !(s == "")
  | none => false

/-- The partial-update combinator of the dynamic UPDATE builders: a field
that is not `undefined` is written verbatim, an absent one keeps the row
value (`if (x[field] !== undefined)`). -/
def providedOr {α : Type} (v : Option α) (rowValue : Option α) : Option α :=
  match v with
  | some w => some w
  | none => rowValue

/-- JavaScript `v || 'AU'` on the optional country string. -/
def countryOrAU (v : Option String) : Option String :=
  match v with
  | some s => if s = "" then some "AU" else some s
  | none => some "AU"

/-! ## Database rows (tables of src/db/schema.sql, fields the policy engine reads) -/

/-- A row of the projects table (`crm_projects` in schema.sql).  Only the
fields consulted by the eligibility and session services appear here; the
descriptive fields are carried by the separate entity-resolver model below.
The `priority_score` column only influences the ORDER BY of the bulk
pre-filter query, which is not modelled (see `prefilterCandidates`). -/
structure ProjectRow where
  id : Nat
  project_id : String
  call_suppressed : Bool
  last_contacted_at : Option Time
  next_call_eligible_at : Option Time
  deriving Repr, DecidableEq

/-- A row of the contacts table, restricted to the fields the eligibility
engine reads. -/
structure ContactRow where
  id : Nat
  do_not_call : Bool
  phone : Option String
  deriving Repr, DecidableEq

/-- A row of the project_contacts junction table.  The services join it
against the internal project key (`p.id = pc.project_id` in
CallEligibilityService.getEligibleCalls) and write it with internal keys
(ProjectContactService.upsertProjectContact), so the reference fields are
modelled as internal keys. -/
structure ProjectContactRow where
  project_ref : Nat
  contact_ref : Nat
  suppress_for_project : Bool
  last_contacted_at : Option Time
  deriving Repr, DecidableEq

/-- TerminalSession scope values. -/
inductive Scope where
  | project
  | contact
  | globalScope
  deriving Repr, DecidableEq

/-- A row of the terminal_sessions table. -/
structure TerminalRow where
  id : Nat
  terminal_id : Option String
  scope : Scope
  project_ref : Option Nat
  contact_ref : Option Nat
  reason : String
  created_by : String
  expires_at : Option Time
  override_allowed : Bool
  deriving Repr, DecidableEq

/-- A row of the call_sessions table. -/
structure SessionRow where
  id : Nat
  call_session_id : Option String
  project_ref : Nat
  contact_ref : Option Nat
  call_type : String
  call_status : String
  detected_role : Option String
  role_confidence : Option Int
  outcome : Option String
  sentiment : Option String
  escalated : Bool
  escalation_reason : Option String
  transcript : Option String
  recording_url : Option String
  started_at : Time
  ended_at : Option Time
  deriving Repr, DecidableEq

/-- The database state shared by the eligibility, session and terminal
services. -/
structure DB where
  projects : List ProjectRow
  contacts : List ContactRow
  project_contacts : List ProjectContactRow
  call_sessions : List SessionRow
  terminal_sessions : List TerminalRow
  deriving Repr, DecidableEq

/-- `SELECT * FROM projects WHERE project_id = $1` (first row). -/
def findProject (db : DB) (projectId : String) : Option ProjectRow :=
  db.projects.find? (fun p => p.project_id == projectId)

/-- `SELECT * FROM contacts WHERE id = $1` (first row). -/
def findContact (db : DB) (contactId : Nat) : Option ContactRow :=
  db.contacts.find? (fun c => c.id == contactId)

/-! ## TerminalService -/

/-- The SQL predicate `expires_at IS NULL OR expires_at > NOW()`. -/
def terminalActive (now : Time) (t : TerminalRow) : Bool :=
  match t.expires_at with
  | none => true
  | some e => now < e

/-- TerminalService.hasActiveTerminalSession.  The source accepts a third
`contactId` argument, but none of the three query branches uses it: the
project branch filters on `scope = 'project' AND project_id = $1` only.  The
argument is kept here to mirror the call sites, and is likewise unused. -/
def hasActiveTerminalSession (db : DB) (now : Time) (scope : Scope)
    (resourceId : Nat) (contactId : Option Nat) : Bool :=
  match scope with
  | .globalScope =>
      db.terminal_sessions.any (fun t =>
        t.scope == Scope.globalScope && terminalActive now t)
  | .project =>
      db.terminal_sessions.any (fun t =>
        t.scope == Scope.project && t.project_ref == some resourceId &&
          terminalActive now t)
  | .contact =>
      db.terminal_sessions.any (fun t =>
        t.scope == Scope.contact && t.contact_ref == some resourceId &&
          terminalActive now t)

/-- Input payload of TerminalService.createTerminalSession.  `project_id` is
the external project id; `contact_id` is assumed to be an internal key, as in
the source. -/
structure TerminalInput where
  terminal_id : Option String
  scope : Scope
  project_id : Option String
  contact_id : Option Nat
  reason : String
  created_by : Option String
  expires_at : Option Time
  override_allowed : Option Bool
  deriving Repr, DecidableEq

/-- The CHECK constraint terminal_sessions_scope_check of schema.sql. -/
def scopeCheckOK (scope : Scope) (projectRef contactRef : Option Nat) : Bool :=
  match scope with
  | .project => projectRef.isSome && contactRef.isNone
  | .contact => contactRef.isSome && projectRef.isNone
  | .globalScope => projectRef.isNone && contactRef.isNone

/-- The INSERT step of createTerminalSession with the resolved references:
subject to the scope CHECK constraint of the store — a violating row makes
the statement fail and the transaction roll back, persisting nothing. -/
def insertTerminal (db : DB) (inp : TerminalInput) (freshId : Nat)
    (projRef contRef : Option Nat) : Except String (TerminalRow × DB) :=
  if scopeCheckOK inp.scope projRef contRef then
    let row : TerminalRow :=
      { id := freshId
        terminal_id := orNullStr inp.terminal_id
        scope := inp.scope
        project_ref := projRef
        contact_ref := contRef
        reason := inp.reason
        created_by := inp.created_by.getD "system"
        expires_at := inp.expires_at
        override_allowed := inp.override_allowed.getD false }
    .ok (row, { db with terminal_sessions := db.terminal_sessions ++ [row] })
  else .error "terminal_sessions_scope_check violation"

/-- The contact reference resolution of createTerminalSession: taken
verbatim from the input only in the `scope === 'contact' && contact_id`
branch, otherwise left null. -/
def terminalContactRef (inp : TerminalInput) : Option Nat :=
  if inp.scope == Scope.contact && inp.contact_id.isSome then inp.contact_id
  else none

/-- TerminalService.createTerminalSession.  The idempotency lookup fires when
`terminal_id` is truthy and a row with that id exists.  Project resolution
only runs in the `scope === 'project' && project_id` branch (failing when the
external id is unknown); any other supplied reference is dropped. -/
def createTerminalSession (db : DB) (inp : TerminalInput) (freshId : Nat) :
    Except String (TerminalRow × DB) :=
  match
    (if isTruthyStr inp.terminal_id then
      db.terminal_sessions.find? (fun t => t.terminal_id == inp.terminal_id)
    else none) with
  | some existing => .ok (existing, db)
  | none =>
    if inp.scope == Scope.project && isTruthyStr inp.project_id then
      match findProject db (inp.project_id.getD "") with
      | some p => insertTerminal db inp freshId (some p.id) (terminalContactRef inp)
      | none => .error "Project not found"
    else insertTerminal db inp freshId none (terminalContactRef inp)

/-! ## CallEligibilityService -/

/-- Result record `{ allowed, reason? }` of checkCallFatigue. -/
structure FatigueResult where
  allowed : Bool
  reason : Option String
  deriving Repr, DecidableEq

/-- `SELECT COUNT(*) FROM call_sessions WHERE project_id = $1 AND started_at >= $2`. -/
def countSessionsByProject (db : DB) (pid : Nat) (since : Time) : Nat :=
  (db.call_sessions.filter (fun s => s.project_ref == pid && since ≤ s.started_at)).length

/-- `SELECT COUNT(*) FROM call_sessions WHERE contact_id = $1 AND started_at >= $2`. -/
def countSessionsByContact (db : DB) (cid : Nat) (since : Time) : Nat :=
  (db.call_sessions.filter (fun s => s.contact_ref == some cid && since ≤ s.started_at)).length

/-- CallEligibilityService.checkCallFatigue.  `todayStart` is the midnight
the source computes with `setHours(0,0,0,0)`; `now - 7 days` is the week
window.  When a project id is supplied, both count queries are the project
variants and the bound parameter is `projectId || contactId`, so the contact
id is never consulted; only with a null project id do the contact-variant
queries run. -/
def checkCallFatigue (db : DB) (todayStart now : Time)
    (projectId contactId : Option Nat) : FatigueResult :=
  match projectId, contactId with
  | none, none => ⟨false, some "Must provide project or contact ID"⟩
  | _, _ =>
    let weekStart := now - 7 * 24 * hourTicks
    match projectId with
    | some pid =>
      if MAX_CALLS_PER_DAY ≤ countSessionsByProject db pid todayStart then
        ⟨false, some "Daily call limit reached"⟩
      else if MAX_CALLS_PER_WEEK ≤ countSessionsByProject db pid weekStart then
        ⟨false, some "Weekly call limit reached"⟩
      else ⟨true, none⟩
    | none =>
      match contactId with
      | some cid =>
        if MAX_CALLS_PER_DAY ≤ countSessionsByContact db cid todayStart then
          ⟨false, some "Daily call limit reached"⟩
        else if MAX_CALLS_PER_WEEK ≤ countSessionsByContact db cid weekStart then
          ⟨false, some "Weekly call limit reached"⟩
        else ⟨true, none⟩
      | none => ⟨false, some "Must provide project or contact ID"⟩

/-- Result record `{ eligible, reason? }` of the eligibility checks. -/
structure EligResult where
  eligible : Bool
  reason : Option String
  deriving Repr, DecidableEq

/-- The cooldown test of isProjectEligible:
`next_call_eligible_at` is set and lies strictly in the future. -/
def cooldownActive (p : ProjectRow) (now : Time) : Bool :=
  match p.next_call_eligible_at with
  | some eligibleAt => now < eligibleAt
  | none => false

/-- CallEligibilityService.isProjectEligible.  Checks, in source order:
project existence, `call_suppressed`, terminal session at project scope,
cooldown, fatigue.  No query at `global` scope occurs anywhere in this
path. -/
def isProjectEligible (db : DB) (todayStart now : Time) (projectId : String) :
    EligResult :=
  match findProject db projectId with
  | none => ⟨false, some "Project not found"⟩
  | some project =>
    if project.call_suppressed then ⟨false, some "Project is suppressed"⟩
    else if hasActiveTerminalSession db now Scope.project project.id none then
      ⟨false, some "Terminal session exists"⟩
    else if cooldownActive project now then
      ⟨false, some "Cooldown period active"⟩
    else
      let fatigueCheck := checkCallFatigue db todayStart now (some project.id) none
      if fatigueCheck.allowed then ⟨true, none⟩
      else ⟨false, fatigueCheck.reason⟩

/-- The project-specific suppression lookup of isContactEligible (checks the
project_contacts row only when the project row resolves). -/
def pcSuppressed (db : DB) (projectId : Option String) (contactId : Nat) : Bool :=
  match projectId with
  | none => false
  | some pidExt =>
    match findProject db pidExt with
    | none => false
    | some p =>
      match db.project_contacts.find?
          (fun pc => pc.project_ref == p.id && pc.contact_ref == contactId) with
      | some pc => pc.suppress_for_project
      | none => false

/-- CallEligibilityService.isContactEligible.  Checks, in source order:
contact existence, `do_not_call`, terminal session at contact scope,
project-specific suppression (when a project id is given), contact fatigue. -/
def isContactEligible (db : DB) (todayStart now : Time) (contactId : Nat)
    (projectId : Option String) : EligResult :=
  match findContact db contactId with
  | none => ⟨false, some "Contact not found"⟩
  | some contact =>
    if contact.do_not_call then ⟨false, some "Contact has do_not_call flag"⟩
    else if hasActiveTerminalSession db now Scope.contact contact.id none then
      ⟨false, some "Terminal session exists"⟩
    else if pcSuppressed db projectId contactId then
      ⟨false, some "Contact suppressed for this project"⟩
    else
      let fatigueCheck := checkCallFatigue db todayStart now none (some contactId)
      if fatigueCheck.allowed then ⟨true, none⟩
      else ⟨false, fatigueCheck.reason⟩

/-- CallEligibilityService.isProjectContactEligible: project check, contact
check, then a `hasActiveTerminalSession('project', internalId, contactId)`
call (whose contact argument the callee ignores); when the project row does
not resolve, that last check is skipped. -/
def isProjectContactEligible (db : DB) (todayStart now : Time)
    (projectId : String) (contactId : Nat) : EligResult :=
  let projectCheck := isProjectEligible db todayStart now projectId
  if !projectCheck.eligible then projectCheck
  else
    let contactCheck := isContactEligible db todayStart now contactId (some projectId)
    if !contactCheck.eligible then contactCheck
    else
      match findProject db projectId with
      | some p =>
        if hasActiveTerminalSession db now Scope.project p.id (some contactId) then
          ⟨false, some "Terminal session exists"⟩
        else ⟨true, none⟩
      | none => ⟨true, none⟩

/-- One candidate row of getEligibleCalls (identifying fields only). -/
structure EligibleCall where
  project_id : String
  contact_id : Nat
  phone : String
  deriving Repr, DecidableEq

/-- The storage-level pre-filter query of getEligibleCalls: the three-way
join of projects, project_contacts and contacts with the WHERE clauses
(suppression flags, cooldown passed, non-empty phone).  The ORDER BY
(priority desc, cooldown asc) and DISTINCT of the source only permute and
deduplicate the candidate list ahead of the LIMIT and are not modelled; the
LIMIT is applied by the caller via `List.take`. -/
def prefilterCandidates (db : DB) (now : Time) : List EligibleCall :=
  db.projects.flatMap (fun p =>
    db.project_contacts.flatMap (fun pc =>
      db.contacts.filterMap (fun c =>
        if pc.project_ref == p.id && pc.contact_ref == c.id &&
            !p.call_suppressed && !c.do_not_call && !pc.suppress_for_project &&
            !(cooldownActive p now) && isTruthyStr c.phone then
          some ⟨p.project_id, c.id, c.phone.getD ""⟩
        else none)))

/-- The per-row re-validation loop body of getEligibleCalls: re-resolve the
project (skip the row if it fails), then terminal session at project scope,
terminal session at contact scope, and `checkCallFatigue(projectInternalId,
contactId)`. -/
def bulkRevalidate (db : DB) (todayStart now : Time) (row : EligibleCall) : Bool :=
  match findProject db row.project_id with
  | none => false
  | some p =>
    !(hasActiveTerminalSession db now Scope.project p.id none) &&
    !(hasActiveTerminalSession db now Scope.contact row.contact_id none) &&
    (checkCallFatigue db todayStart now (some p.id) (some row.contact_id)).allowed

/-- CallEligibilityService.getEligibleCalls. -/
def getEligibleCalls (db : DB) (todayStart now : Time) (limit : Nat) :
    List EligibleCall :=
  ((prefilterCandidates db now).take limit).filter (bulkRevalidate db todayStart now)

/-! ## CallSessionService -/

/-- Input payload of CallSessionService.createCallSession.  `project_id` is
the external project id; `contact_id` is an internal contact key. -/
structure SessionInput where
  call_session_id : Option String
  project_id : String
  contact_id : Option Nat
  call_type : String
  call_status : String
  detected_role : Option String
  role_confidence : Option Int
  outcome : Option String
  sentiment : Option String
  escalated : Option Bool
  escalation_reason : Option String
  transcript : Option String
  recording_url : Option String
  started_at : Option Time
  ended_at : Option Time
  deriving Repr, DecidableEq

/-- The idempotency lookup of createCallSession: fires when
`call_session_id` is truthy and an existing row carries it. -/
def idempotentHit (db : DB) (csid : Option String) : Option SessionRow :=
  if isTruthyStr csid then
    db.call_sessions.find? (fun r => r.call_session_id == csid)
  else none

/-- The INSERT row built by createCallSession (`x || null` coercions as in
the source; `started_at` defaults to the current instant when absent; the
empty-string/zero falsiness of the two timestamp parameters is not
modelled since they are Date values at this point in the source). -/
def mkSessionRow (inp : SessionInput) (projectRef : Nat)
    (contactRef : Option Nat) (freshId : Nat) (now : Time) : SessionRow :=
  { id := freshId
    call_session_id := orNullStr inp.call_session_id
    project_ref := projectRef
    contact_ref := contactRef
    call_type := inp.call_type
    call_status := inp.call_status
    detected_role := orNullStr inp.detected_role
    role_confidence := orNullInt inp.role_confidence
    outcome := orNullStr inp.outcome
    sentiment := orNullStr inp.sentiment
    escalated := inp.escalated.getD false
    escalation_reason := orNullStr inp.escalation_reason
    transcript := orNullStr inp.transcript
    recording_url := orNullStr inp.recording_url
    started_at := inp.started_at.getD now
    ended_at := inp.ended_at }

/-- ProjectContactService.upsertProjectContact specialised to the one call
site in createCallSession, where the only provided field is
`last_contacted_at`: an existing (project, contact) association is updated in
place, otherwise a fresh association row is inserted with column defaults. -/
def upsertPCLastContacted (pcs : List ProjectContactRow) (projectRef contactRef : Nat)
    (now : Time) : List ProjectContactRow :=
  if (pcs.find? (fun pc => pc.project_ref == projectRef && pc.contact_ref == contactRef)).isSome then
    pcs.map (fun pc =>
      if pc.project_ref == projectRef && pc.contact_ref == contactRef then
        { pc with last_contacted_at := some now }
      else pc)
  else
    pcs ++ [{ project_ref := projectRef
              contact_ref := contactRef
              suppress_for_project := false
              last_contacted_at := some now }]

/-- Contact resolution of createCallSession: an unknown internal contact
reference is silently dropped (`contactInternalId` stays null). -/
def resolveContact (db : DB) (contactId : Option Nat) : Option Nat :=
  match contactId with
  | some cid => if (findContact db cid).isSome then some cid else none
  | none => none

/-- The combined effect on a project row of the two UPDATE statements
`updateLastContactedAt(project_id, now)` and
`updateNextCallEligibleAt(project_id, now + 24h)` issued by
createCallSession (each UPDATE hits every row whose external id matches). -/
def applyCooldownStamp (extId : String) (now : Time) (q : ProjectRow) : ProjectRow :=
  if q.project_id == extId then
    { q with last_contacted_at := some now,
             next_call_eligible_at := some (now + MIN_CALL_COOLDOWN_HOURS * hourTicks) }
  else q

/-- CallSessionService.createCallSession.  After the idempotency
short-circuit and project resolution (failing when the external id is
unknown), contact resolution silently drops an unknown contact reference and
the session row is INSERTed on the dedicated transaction client (BEGIN at
the top, COMMIT only at the end).  The response-building SELECT that follows
(`SELECT cs.*, ... WHERE cs.id = $1` with the new row's id) goes through the
shared pool, i.e. a different connection seeing only committed state: the
uncommitted INSERT is invisible there, so for a store-generated fresh id the
SELECT returns no row, `mapRowToCallSession(rows[0])` dereferences undefined
and throws, and the catch block ROLLBACKs the INSERT — the cooldown updates,
the ProjectContact stamp and the COMMIT are never reached.  The `some`
branch of that lookup transcribes the letter of the source for an id already
committed (impossible for a store-generated key): the committed row is
returned as the response, the two pool-side project cooldown UPDATEs and the
ProjectContact stamp run, and COMMIT persists the INSERT; the writes touch
pairwise disjoint tables, so that final state is written as one record
update. -/
def createCallSession (db : DB) (now : Time) (inp : SessionInput) (freshId : Nat) :
    Except String (SessionRow × DB) :=
  match idempotentHit db inp.call_session_id with
  | some existing => .ok (existing, db)
  | none =>
    match findProject db inp.project_id with
    | none => .error "Project not found"
    | some p =>
      let contactInternal := resolveContact db inp.contact_id
      let row := mkSessionRow inp p.id contactInternal freshId now
      match db.call_sessions.find? (fun r => r.id == freshId) with
      | none => .error "TypeError: response row undefined"
      | some visible =>
        .ok (visible,
          { db with
            call_sessions := db.call_sessions ++ [row]
            projects := db.projects.map (applyCooldownStamp inp.project_id now)
            project_contacts :=
              match contactInternal with
              | some cid => upsertPCLastContacted db.project_contacts p.id cid now
              | none => db.project_contacts })

/-- The database state that PERSISTS after a createCallSession execution.
Write-by-write commit semantics: the session INSERT runs on the dedicated
transaction client and persists only if COMMIT is reached; the two project
cooldown UPDATEs and the ProjectContact stamp run through the shared pool or
their own client and would commit immediately when executed.  Execution
order is: idempotency lookup, project resolution, client INSERT, pool-side
response SELECT, pool-side cooldown UPDATEs, ProjectContact upsert, COMMIT.
For a store-generated fresh id the response SELECT throws (it cannot see the
uncommitted INSERT), so none of the pool-side writes ever runs and the
ROLLBACK discards the INSERT: the persisted state is the input state on
every path except the (store-impossible) already-committed-id branch, where
all four writes persist together. -/
def createCallSessionPersisted (db : DB) (now : Time) (inp : SessionInput)
    (freshId : Nat) : DB :=
  match idempotentHit db inp.call_session_id with
  | some _ => db
  | none =>
    match findProject db inp.project_id with
    | none => db
    | some p =>
      let contactInternal := resolveContact db inp.contact_id
      let row := mkSessionRow inp p.id contactInternal freshId now
      match db.call_sessions.find? (fun r => r.id == freshId) with
      | none => db
      | some _ =>
        { db with
          call_sessions := db.call_sessions ++ [row]
          projects := db.projects.map (applyCooldownStamp inp.project_id now)
          project_contacts :=
            match contactInternal with
            | some cid => upsertPCLastContacted db.project_contacts p.id cid now
            | none => db.project_contacts }

/-- Partial-update payload of CallSessionService.updateCallSession.  The
field whitelist of the source is exactly: call_status, detected_role,
role_confidence, outcome, sentiment, escalated, escalation_reason,
transcript, recording_url, ended_at. -/
structure SessionUpdate where
  call_status : Option String
  detected_role : Option String
  role_confidence : Option Int
  outcome : Option String
  sentiment : Option String
  escalated : Option Bool
  escalation_reason : Option String
  transcript : Option String
  recording_url : Option String
  ended_at : Option Time
  deriving Repr, DecidableEq

/-- Number of provided fields of a SessionUpdate (the length of the
`updateFields` array the source builds). -/
def sessionUpdateFieldCount (u : SessionUpdate) : Nat :=
  (if u.call_status.isSome then 1 else 0) +
  (if u.detected_role.isSome then 1 else 0) +
  (if u.role_confidence.isSome then 1 else 0) +
  (if u.outcome.isSome then 1 else 0) +
  (if u.sentiment.isSome then 1 else 0) +
  (if u.escalated.isSome then 1 else 0) +
  (if u.escalation_reason.isSome then 1 else 0) +
  (if u.transcript.isSome then 1 else 0) +
  (if u.recording_url.isSome then 1 else 0) +
  (if u.ended_at.isSome then 1 else 0)

/-- Apply the provided fields of a SessionUpdate to a row (the generated
`SET` clause). -/
def applySessionUpdate (u : SessionUpdate) (r : SessionRow) : SessionRow :=
  { r with
    call_status := u.call_status.getD r.call_status
    detected_role := providedOr u.detected_role r.detected_role
    role_confidence := providedOr u.role_confidence r.role_confidence
    outcome := providedOr u.outcome r.outcome
    sentiment := providedOr u.sentiment r.sentiment
    escalated := u.escalated.getD r.escalated
    escalation_reason := providedOr u.escalation_reason r.escalation_reason
    transcript := providedOr u.transcript r.transcript
    recording_url := providedOr u.recording_url r.recording_url
    ended_at := providedOr u.ended_at r.ended_at }

/-- CallSessionService.updateCallSession: with an empty update the generated
`UPDATE call_sessions SET  WHERE id = $1` is malformed and the store rejects
it (no row changes); otherwise the UPDATE runs against the row with the
given internal id and the operation fails with not-found when no row
matched. -/
def updateCallSession (db : DB) (sessionId : Nat) (u : SessionUpdate) :
    Except String DB :=
  if sessionUpdateFieldCount u = 0 then .error "malformed UPDATE statement"
  else if (db.call_sessions.find? (fun r => r.id == sessionId)).isNone then
    .error "Call session not found"
  else
    .ok { db with call_sessions := db.call_sessions.map (fun r =>
        if r.id == sessionId then applySessionUpdate u r else r) }

/-! ## ProjectService.upsertProject (entity-resolver model)

The upsert operates on the full descriptive row of the crm_projects table, so
it is modelled on a dedicated row type carrying those columns.  Payload
fields are `Option`-valued: `none` is JavaScript `undefined` (field absent),
`some ""` is a provided empty string — the distinction matters because the
INSERT path coerces with `|| null` (empty string becomes NULL) while the
UPDATE path writes any value that is not `undefined` verbatim. -/

/-- The request payload of upsertProject (fields of the source `Project`
type that upsertProject reads; timestamps arrive as strings from the HTTP
layer). -/
structure ProjPayload where
  project_id : String
  name : String
  address : Option String
  suburb : Option String
  postcode : Option String
  state : Option String
  category : Option String
  awarded_date : Option String
  distance : Option Int
  budget : Option String
  quotes_due_date : Option String
  country : Option String
  last_contacted_at : Option String
  next_call_eligible_at : Option String
  call_suppressed : Option Bool
  deriving Repr, DecidableEq

/-- A row of crm_projects as touched by upsertProject. -/
structure ProjRow where
  id : Nat
  project_id : String
  name : String
  address : Option String
  suburb : Option String
  postcode : Option String
  state : Option String
  category : Option String
  awarded_date : Option String
  distance : Option Int
  budget : Option String
  quotes_due_date : Option String
  country : Option String
  last_contacted_at : Option String
  next_call_eligible_at : Option String
  call_suppressed : Bool
  deriving Repr, DecidableEq

/-- The INSERT branch of upsertProject: `|| null` on the optional string
fields, `?? null` on distance, `country || 'AU'`, `call_suppressed || false`. -/
def insertProjRow (p : ProjPayload) (freshId : Nat) : ProjRow :=
  { id := freshId
    project_id := p.project_id
    name := p.name
    address := orNullStr p.address
    suburb := orNullStr p.suburb
    postcode := orNullStr p.postcode
    state := orNullStr p.state
    category := orNullStr p.category
    awarded_date := orNullStr p.awarded_date
    distance := p.distance
    budget := orNullStr p.budget
    quotes_due_date := orNullStr p.quotes_due_date
    country := countryOrAU p.country
    last_contacted_at := orNullStr p.last_contacted_at
    next_call_eligible_at := orNullStr p.next_call_eligible_at
    call_suppressed := p.call_suppressed.getD false }

/-- The UPDATE branch of upsertProject: every field of the source
`fieldsToUpdate` whitelist that is not `undefined` is written verbatim
(`name` is always present, hence always written). -/
def applyProjUpdate (p : ProjPayload) (r : ProjRow) : ProjRow :=
  { r with
    name := p.name
    address := providedOr p.address r.address
    suburb := providedOr p.suburb r.suburb
    postcode := providedOr p.postcode r.postcode
    state := providedOr p.state r.state
    category := providedOr p.category r.category
    awarded_date := providedOr p.awarded_date r.awarded_date
    distance := providedOr p.distance r.distance
    budget := providedOr p.budget r.budget
    quotes_due_date := providedOr p.quotes_due_date r.quotes_due_date
    country := providedOr p.country r.country
    last_contacted_at := providedOr p.last_contacted_at r.last_contacted_at
    next_call_eligible_at := providedOr p.next_call_eligible_at r.next_call_eligible_at
    call_suppressed := p.call_suppressed.getD r.call_suppressed }

/-- The per-row effect of the UPDATE statement of upsertProject (WHERE
project_id = external id). -/
def projUpdateRow (p : ProjPayload) (x : ProjRow) : ProjRow :=
  if x.project_id == p.project_id then applyProjUpdate p x else x

/-- ProjectService.upsertProject: look up by external id inside one
transaction; if found UPDATE (the statement's WHERE clause hits every row
with that external id; uniqueness of the external id is a schema
constraint), else INSERT.  Returns the affected row and the new table
state. -/
def upsertProject (tbl : List ProjRow) (p : ProjPayload) (freshId : Nat) :
    ProjRow × List ProjRow :=
  match tbl.find? (fun r => r.project_id == p.project_id) with
  | some r => (applyProjUpdate p r, tbl.map (projUpdateRow p))
  | none =>
    let row := insertProjRow p freshId
    (row, tbl ++ [row])

/-! ## ContactService.upsertContact (entity-resolver model) -/

/-- The request payload of upsertContact (the source `Contact` type as the
contacts route delivers it). -/
structure ContactPayload where
  contact_id : Option String
  name : String
  email : Option String
  companyname : Option String
  phonenumber : Option String
  global_role : Option String
  authority_level : Option String
  preferred_channel : Option String
  do_not_call : Option Bool
  last_ai_contact : Option String
  deriving Repr, DecidableEq

/-- A row of the contacts table as touched by upsertContact. -/
structure ContactFullRow where
  id : Nat
  contact_id : Option String
  name : String
  email : Option String
  companyname : Option String
  phonenumber : Option String
  global_role : Option String
  authority_level : Option String
  preferred_channel : Option String
  do_not_call : Bool
  last_ai_contact : Option String
  deriving Repr, DecidableEq

/-- The resolution sequence of upsertContact: match by external contact_id
when truthy, else by phonenumber when truthy, else by email when truthy
(each a `SELECT id FROM contacts WHERE col = $1`, first row wins). -/
def lookupContact (tbl : List ContactFullRow) (c : ContactPayload) :
    Option ContactFullRow :=
  let byId :=
    if isTruthyStr c.contact_id then
      tbl.find? (fun r => r.contact_id == c.contact_id)
    else none
  match byId with
  | some r => some r
  | none =>
    let byPhone :=
      if isTruthyStr c.phonenumber then
        tbl.find? (fun r => r.phonenumber == c.phonenumber)
      else none
    match byPhone with
    | some r => some r
    | none =>
      if isTruthyStr c.email then
        tbl.find? (fun r => r.email == c.email)
      else none

/-- The UPDATE branch of upsertContact: each whitelist field that is not
`undefined` is written verbatim (`name` is required, hence always
written). -/
def applyContactUpdate (c : ContactPayload) (r : ContactFullRow) : ContactFullRow :=
  { r with
    contact_id := providedOr c.contact_id r.contact_id
    name := c.name
    email := providedOr c.email r.email
    companyname := providedOr c.companyname r.companyname
    phonenumber := providedOr c.phonenumber r.phonenumber
    global_role := providedOr c.global_role r.global_role
    authority_level := providedOr c.authority_level r.authority_level
    preferred_channel := providedOr c.preferred_channel r.preferred_channel
    do_not_call := c.do_not_call.getD r.do_not_call
    last_ai_contact := providedOr c.last_ai_contact r.last_ai_contact }

/-- The INSERT branch of upsertContact (`|| null` coercions, `do_not_call ||
false`). -/
def insertContactRow (c : ContactPayload) (freshId : Nat) : ContactFullRow :=
  { id := freshId
    contact_id := orNullStr c.contact_id
    name := c.name
    email := orNullStr c.email
    companyname := orNullStr c.companyname
    phonenumber := orNullStr c.phonenumber
    global_role := orNullStr c.global_role
    authority_level := orNullStr c.authority_level
    preferred_channel := orNullStr c.preferred_channel
    do_not_call := c.do_not_call.getD false
    last_ai_contact := orNullStr c.last_ai_contact }

/-- The per-row effect of the UPDATE statement of upsertContact (WHERE
id = resolved internal id). -/
def contactUpdateRow (c : ContactPayload) (rid : Nat) (x : ContactFullRow) :
    ContactFullRow :=
  if x.id == rid then applyContactUpdate c x else x

/-- ContactService.upsertContact: resolve per `lookupContact`; on a match
UPDATE the row with that internal id (`WHERE id = $n`), else INSERT. -/
def upsertContact (tbl : List ContactFullRow) (c : ContactPayload) (freshId : Nat) :
    ContactFullRow × List ContactFullRow :=
  match lookupContact tbl c with
  | some r => (applyContactUpdate c r, tbl.map (contactUpdateRow c r.id))
  | none =>
    let row := insertContactRow c freshId
    (row, tbl ++ [row])

/-! ## Derived decision predicates (for the bulk/single comparison) -/

/-- The contact-side checks of isContactEligible without the final fatigue
check: existence, `do_not_call`, contact-scope terminal, project-specific
suppression. -/
def contactChecksSansFatigue (db : DB) (now : Time) (contactId : Nat)
    (projectId : Option String) : Bool :=
  match findContact db contactId with
  | none => false
  | some contact =>
    !contact.do_not_call &&
    !(hasActiveTerminalSession db now Scope.contact contact.id none) &&
    !(pcSuppressed db projectId contactId)

/-- The single-pair decision of isProjectContactEligible with the
contact-side fatigue check removed: all project checks, the contact checks
other than fatigue, and the final pair-scoped terminal check. -/
def isProjectContactEligibleSansContactFatigue (db : DB) (todayStart now : Time)
    (projectId : String) (contactId : Nat) : Bool :=
  (isProjectEligible db todayStart now projectId).eligible &&
  contactChecksSansFatigue db now contactId (some projectId) &&
  (match findProject db projectId with
   | some p => !(hasActiveTerminalSession db now Scope.project p.id (some contactId))
   | none => true)

/-! ## Concrete states used by the closed theorems and witnesses -/

/-- One clean project, one clean linked contact, and a single permanent
GLOBAL-scope terminal session. -/
def dbC1 : DB :=
  { projects := [⟨1, "p1", false, none, none⟩]
    contacts := [⟨10, false, some "555"⟩]
    project_contacts := [⟨1, 10, false, none⟩]
    call_sessions := []
    terminal_sessions := [⟨1, none, Scope.globalScope, none, none, "opt_out", "system", none, false⟩] }

/-- One clean project, no other rows. -/
def dbC2 : DB :=
  { projects := [⟨1, "p1", false, none, none⟩]
    contacts := []
    project_contacts := []
    call_sessions := []
    terminal_sessions := [] }

/-- A call-session request against project p1 with no linked contact. -/
def inpC2 : SessionInput :=
  { call_session_id := none, project_id := "p1", contact_id := none
    call_type := "ai", call_status := "initiated"
    detected_role := none, role_confidence := none, outcome := none
    sentiment := none, escalated := none, escalation_reason := none
    transcript := none, recording_url := none, started_at := none, ended_at := none }

/-- One clean project and one contact, for the atomicity scenario. -/
def dbC3 : DB :=
  { projects := [⟨1, "p1", false, none, none⟩]
    contacts := [⟨10, false, some "555"⟩]
    project_contacts := []
    call_sessions := []
    terminal_sessions := [] }

/-- A call-session request for project p1 linked to contact 10. -/
def inpC3 : SessionInput :=
  { call_session_id := none, project_id := "p1", contact_id := some 10
    call_type := "ai", call_status := "initiated"
    detected_role := none, role_confidence := none, outcome := none
    sentiment := none, escalated := none, escalation_reason := none
    transcript := none, recording_url := none, started_at := none, ended_at := none }

/-- Contact row A, matched by external id in the C4 scenario. -/
def rowA4 : ContactFullRow :=
  ⟨1, some "ext-A", "Alice", some "a@example.com", none, some "111",
   none, none, none, false, none⟩

/-- Contact row B, matched by phone in the C4 scenario. -/
def rowB4 : ContactFullRow :=
  ⟨2, some "ext-B", "Bob", some "b@example.com", none, some "222",
   none, none, none, false, none⟩

/-- A payload whose external id matches row A while its phone matches row B. -/
def payloadC4 : ContactPayload :=
  { contact_id := some "ext-A", name := "Alice Updated", email := none
    companyname := none, phonenumber := some "222", global_role := none
    authority_level := none, preferred_channel := none, do_not_call := none
    last_ai_contact := none }

/-- Contacts table for the C4 scenario (phone-matching row first, so a
wrong precedence would hit it first). -/
def tblC4 : List ContactFullRow := [rowB4, rowA4]

/-- Two projects sharing contact 10; the contact has already received three
calls today, all recorded against the second project. -/
def dbC5 : DB :=
  { projects := [⟨1, "p1", false, none, none⟩, ⟨2, "q1", false, none, none⟩]
    contacts := [⟨10, false, some "555"⟩]
    project_contacts := [⟨1, 10, false, none⟩]
    call_sessions :=
      [ ⟨101, none, 2, some 10, "ai", "completed", none, none, none, none, false, none, none, none, 1500, none⟩
      , ⟨102, none, 2, some 10, "ai", "completed", none, none, none, none, false, none, none, none, 1500, none⟩
      , ⟨103, none, 2, some 10, "ai", "completed", none, none, none, none, false, none, none, none, 1500, none⟩ ]
    terminal_sessions := [] }

/-- The candidate row the pre-filter produces on dbC5. -/
def rowC5 : EligibleCall := ⟨"p1", 10, "555"⟩

/-- A project payload with a provided-but-empty `budget` string. -/
def payloadC6 : ProjPayload :=
  { project_id := "p", name := "n", address := none, suburb := none
    postcode := none, state := none, category := none, awarded_date := none
    distance := none, budget := some "", quotes_due_date := none
    country := none, last_contacted_at := none, next_call_eligible_at := none
    call_suppressed := none }

/-- A fully-truthy project payload, for the idempotence witness. -/
def payloadC6w : ProjPayload :=
  { project_id := "pw", name := "W", address := some "1 Main St", suburb := none
    postcode := some "2000", state := none, category := none, awarded_date := none
    distance := some 5, budget := some "10k", quotes_due_date := none
    country := some "AU", last_contacted_at := none, next_call_eligible_at := none
    call_suppressed := some false }

/-- One project, empty terminal table, for the C7 scenarios. -/
def dbC7 : DB :=
  { projects := [⟨1, "p1", false, none, none⟩]
    contacts := []
    project_contacts := []
    call_sessions := []
    terminal_sessions := [] }

/-- A GLOBAL-scope terminal request that also carries a project reference —
a violation of the scope invariant. -/
def inpC7 : TerminalInput :=
  { terminal_id := none, scope := Scope.globalScope, project_id := some "p1"
    contact_id := none, reason := "opt_out", created_by := none
    expires_at := none, override_allowed := none }

/-- The row the violating request of inpC7 nevertheless inserts. -/
def rowC7 : TerminalRow :=
  ⟨5, none, Scope.globalScope, none, none, "opt_out", "system", none, false⟩

/-- A project-scope terminal request without a project reference. -/
def inpC7a : TerminalInput :=
  { terminal_id := none, scope := Scope.project, project_id := none
    contact_id := none, reason := "opt_out", created_by := none
    expires_at := none, override_allowed := none }

/-- A contact-scope terminal request without a contact reference. -/
def inpC7b : TerminalInput :=
  { terminal_id := none, scope := Scope.contact, project_id := none
    contact_id := none, reason := "opt_out", created_by := none
    expires_at := none, override_allowed := none }

/-- Project p1 with exactly three calls recorded today. -/
def dbC8a : DB :=
  { projects := [⟨1, "p1", false, none, none⟩]
    contacts := []
    project_contacts := []
    call_sessions :=
      [ ⟨201, none, 1, none, "ai", "completed", none, none, none, none, false, none, none, none, 1500, none⟩
      , ⟨202, none, 1, none, "ai", "completed", none, none, none, none, false, none, none, none, 1500, none⟩
      , ⟨203, none, 1, none, "ai", "completed", none, none, none, none, false, none, none, none, 1500, none⟩ ]
    terminal_sessions := [] }

/-- Project p1 with exactly two calls recorded today. -/
def dbC8b : DB :=
  { projects := [⟨1, "p1", false, none, none⟩]
    contacts := []
    project_contacts := []
    call_sessions :=
      [ ⟨201, none, 1, none, "ai", "completed", none, none, none, none, false, none, none, none, 1500, none⟩
      , ⟨202, none, 1, none, "ai", "completed", none, none, none, none, false, none, none, none, 1500, none⟩ ]
    terminal_sessions := [] }

/-- Project p1 with two calls today and eight more earlier in the trailing
week (ten within the week in total). -/
def dbC8c : DB :=
  { projects := [⟨1, "p1", false, none, none⟩]
    contacts := []
    project_contacts := []
    call_sessions :=
      [ ⟨201, none, 1, none, "ai", "completed", none, none, none, none, false, none, none, none, 1500, none⟩
      , ⟨202, none, 1, none, "ai", "completed", none, none, none, none, false, none, none, none, 1500, none⟩
      , ⟨211, none, 1, none, "ai", "completed", none, none, none, none, false, none, none, none, 500, none⟩
      , ⟨212, none, 1, none, "ai", "completed", none, none, none, none, false, none, none, none, 500, none⟩
      , ⟨213, none, 1, none, "ai", "completed", none, none, none, none, false, none, none, none, 500, none⟩
      , ⟨214, none, 1, none, "ai", "completed", none, none, none, none, false, none, none, none, 500, none⟩
      , ⟨215, none, 1, none, "ai", "completed", none, none, none, none, false, none, none, none, 500, none⟩
      , ⟨216, none, 1, none, "ai", "completed", none, none, none, none, false, none, none, none, 500, none⟩
      , ⟨217, none, 1, none, "ai", "completed", none, none, none, none, false, none, none, none, 500, none⟩
      , ⟨218, none, 1, none, "ai", "completed", none, none, none, none, false, none, none, none, 500, none⟩ ]
    terminal_sessions := [] }

/-- An existing session row for the C9 update witness. -/
def rowC9 : SessionRow :=
  ⟨301, none, 1, some 10, "ai", "initiated", none, none, none, none, false,
   none, none, none, 1500, none⟩

/-- A database holding the C9 session row. -/
def dbC9 : DB :=
  { projects := [⟨1, "p1", false, none, none⟩]
    contacts := [⟨10, false, some "555"⟩]
    project_contacts := []
    call_sessions := [rowC9]
    terminal_sessions := [] }

/-- A partial update touching only status and outcome. -/
def updC9 : SessionUpdate :=
  { call_status := some "completed", detected_role := none
    role_confidence := none, outcome := some "interested", sentiment := none
    escalated := none, escalation_reason := none, transcript := none
    recording_url := none, ended_at := some 1600 }

/-- The state after `updateCallSession dbC9 301 updC9`. -/
def dbC9after : DB :=
  match updateCallSession dbC9 301 updC9 with
  | .ok d => d
  | .error _ => dbC9

/-- An existing session row carrying an external call_session_id, for the
idempotent-hit instance of the C9 witness. -/
def rowC9b : SessionRow :=
  ⟨305, some "cs1", 1, none, "ai", "completed", none, none, none, none, false,
   none, none, none, 1500, none⟩

/-- A database holding the idempotent-hit session row. -/
def dbC9b : DB :=
  { projects := [⟨1, "p1", false, none, none⟩]
    contacts := []
    project_contacts := []
    call_sessions := [rowC9b]
    terminal_sessions := [] }

/-- A creation request replaying the external id of rowC9b. -/
def inpC9b : SessionInput :=
  { call_session_id := some "cs1", project_id := "p1", contact_id := none
    call_type := "ai", call_status := "initiated"
    detected_role := none, role_confidence := none, outcome := none
    sentiment := none, escalated := none, escalation_reason := none
    transcript := none, recording_url := none, started_at := none, ended_at := none }

/-- One project, no contacts: contact 99 is an unknown reference. -/
def dbC10 : DB :=
  { projects := [⟨1, "p1", false, none, none⟩]
    contacts := []
    project_contacts := []
    call_sessions := []
    terminal_sessions := [] }

/-- A request referencing the unknown contact 99 and the known project p1. -/
def inpC10 : SessionInput :=
  { call_session_id := none, project_id := "p1", contact_id := some 99
    call_type := "ai", call_status := "initiated"
    detected_role := none, role_confidence := none, outcome := none
    sentiment := none, escalated := none, escalation_reason := none
    transcript := none, recording_url := none, started_at := none, ended_at := none }

/-- A request referencing the unknown contact 99 and an unknown project. -/
def inpC10b : SessionInput :=
  { call_session_id := none, project_id := "zz", contact_id := some 99
    call_type := "ai", call_status := "initiated"
    detected_role := none, role_confidence := none, outcome := none
    sentiment := none, escalated := none, escalation_reason := none
    transcript := none, recording_url := none, started_at := none, ended_at := none }

/-- Number of rows carrying a given external project id. -/
def countExt (tbl : List ProjRow) (eid : String) : Nat :=
  (tbl.filter (fun r => r.project_id == eid)).length

/-- All provided optional string fields of a project payload are non-empty
(so the `|| null` coercions of the INSERT branch are the identity). -/
def truthyProjPayload (p : ProjPayload) : Prop :=
  p.address ≠ some "" ∧ p.suburb ≠ some "" ∧ p.postcode ≠ some "" ∧
  p.state ≠ some "" ∧ p.category ≠ some "" ∧ p.awarded_date ≠ some "" ∧
  p.budget ≠ some "" ∧ p.quotes_due_date ≠ some "" ∧ p.country ≠ some "" ∧
  p.last_contacted_at ≠ some "" ∧ p.next_call_eligible_at ≠ some ""

/-- The identifying fields of a session row that updateCallSession must
never touch. -/
def sessionKeyFields (r : SessionRow) : Nat × Option Nat × Time :=
  (r.project_ref, r.contact_ref, r.started_at)

/-- Number of call-session rows recorded for a project. -/
def countProjSessions (db : DB) (pid : Nat) : Nat :=
  (db.call_sessions.filter (fun r => r.project_ref == pid)).length

/-! ## General list lemmas -/

/-- In a list whose keys are nodup, `find?` with a predicate that pins the
key down returns the unique member satisfying it. -/
theorem find?_eq_some_of_nodup_key {α β : Type} [DecidableEq β]
    (l : List α) (key : α → β) (pred : α → Bool) (a : α)
    (ha : a ∈ l) (hpa : pred a = true)
    (hkey : ∀ x, pred x = true → key x = key a)
    (hnd : (l.map key).Nodup) : l.find? pred = some a := by
  induction l with
  | nil => cases ha
  | cons h t ih =>
    rw [List.map_cons, List.nodup_cons] at hnd
    by_cases hh : pred h = true
    · have hk : key h = key a := hkey h hh
      have hha : h = a := by
        rcases List.mem_cons.mp ha with rfl | hat
        · rfl
        · exact absurd (hk ▸ List.mem_map_of_mem key hat) hnd.1
      rw [List.find?_cons_of_pos _ hh, hha]
    · have hne : a ≠ h := fun e => hh (e ▸ hpa)
      have hat : a ∈ t := by
        rcases List.mem_cons.mp ha with rfl | hat
        · exact absurd rfl hne
        · exact hat
      rw [List.find?_cons_of_neg _ (by simp [hh])]
      exact ih hat hnd.2

/-- `find?` over a key-preserving map. -/
theorem find?_map_key_pres {α β : Type} [DecidableEq β]
    (l : List α) (g : α → α) (key : α → β) (k : β)
    (hg : ∀ x, key (g x) = key x) :
    (l.map g).find? (fun x => key x == k) =
      (l.find? (fun x => key x == k)).map g := by
  induction l with
  | nil => rfl
  | cons h t ih =>
    by_cases hh : key h = k
    · rw [List.map_cons, List.find?_cons_of_pos _ (by simp [hg, hh]),
        List.find?_cons_of_pos _ (by simp [hh])]
      rfl
    · rw [List.map_cons, List.find?_cons_of_neg _ (by simp [hg, hh]),
        List.find?_cons_of_neg _ (by simp [hh]), ih]

/-- Filter length over a key-preserving map. -/
theorem filter_length_map_key_pres {α β : Type} [DecidableEq β]
    (l : List α) (g : α → α) (key : α → β) (k : β)
    (hg : ∀ x, key (g x) = key x) :
    ((l.map g).filter (fun x => key x == k)).length =
      (l.filter (fun x => key x == k)).length := by
  induction l with
  | nil => rfl
  | cons h t ih =>
    by_cases hh : key h = k
    · rw [List.map_cons, List.filter_cons_of_pos (by simp [hg, hh]),
        List.filter_cons_of_pos (by simp [hh])]
      simpa using ih
    · rw [List.map_cons, List.filter_cons_of_neg (by simp [hg, hh]),
        List.filter_cons_of_neg (by simp [hh]), ih]

/-- `find?` distributes over append. -/
theorem find?_append_eq {α : Type} (l1 l2 : List α) (pred : α → Bool) :
    (l1 ++ l2).find? pred =
      (l1.find? pred).or (l2.find? pred) := by
  induction l1 with
  | nil => rfl
  | cons h t ih =>
    by_cases hh : pred h = true
    · rw [List.cons_append, List.find?_cons_of_pos _ hh,
        List.find?_cons_of_pos _ hh, Option.or]
    · rw [List.cons_append, List.find?_cons_of_neg _ (by simp [hh]),
        List.find?_cons_of_neg _ (by simp [hh]), ih]

/-- A list whose `find?` is `none` filters to the empty list. -/
theorem filter_eq_nil_of_find?_eq_none {α : Type} (l : List α) (pred : α → Bool)
    (h : l.find? pred = none) : l.filter pred = [] := by
  rw [List.find?_eq_none] at h
  exact List.filter_eq_nil_iff.mpr (by simpa using h)

/-- Mapping after a projection-preserving rewrite leaves the projection
image unchanged. -/
theorem map_map_eq_of_pres {α β : Type} (l : List α) (f : α → β) (g : α → α)
    (h : ∀ x, f (g x) = f x) : (l.map g).map f = l.map f := by
  induction l with
  | nil => rfl
  | cons a t ih => simp [h, ih]

/-- A list is unchanged by mapping a function that fixes its members. -/
theorem map_eq_self_of_fix {α : Type} (l : List α) (g : α → α)
    (h : ∀ x ∈ l, g x = x) : l.map g = l := by
  induction l with
  | nil => rfl
  | cons a t ih =>
    rw [List.map_cons, h a (List.mem_cons_self a t),
      ih (fun x hx => h x (List.mem_cons_of_mem a hx))]

/-- The provided-or-keep combinator over the inserted `|| null` value is the
inserted value, provided the value is not the empty string. -/
theorem providedOr_orNullStr (v : Option String) (h : v ≠ some "") :
    providedOr v (orNullStr v) = orNullStr v := by
  cases v with
  | none => rfl
  | some s =>
    have hs : ¬s = "" := fun e => h (by rw [e])
    simp [providedOr, orNullStr, hs]

/-- The provided-or-keep combinator over the inserted `|| 'AU'` value is the
inserted value, provided the value is not the empty string. -/
theorem providedOr_countryOrAU (v : Option String) (h : v ≠ some "") :
    providedOr v (countryOrAU v) = countryOrAU v := by
  cases v with
  | none => rfl
  | some s =>
    have hs : ¬s = "" := fun e => h (by rw [e])
    simp [providedOr, countryOrAU, hs]

/-- The provided-or-keep combinator applied twice is the same as once. -/
theorem providedOr_idem {α : Type} (v rf : Option α) :
    providedOr v (providedOr v rf) = providedOr v rf := by
  cases v <;> rfl

/-! ## Shape lemmas for the service operations -/

/-- With a fully-truthy payload, updating the row just inserted from that
payload is a no-op: the `|| null` coercions of the INSERT were the identity,
so the UPDATE rewrites every provided field with the value it already has. -/
theorem applyProjUpdate_insert_fixed (p : ProjPayload) (freshId : Nat)
    (ht : truthyProjPayload p) :
    applyProjUpdate p (insertProjRow p freshId) = insertProjRow p freshId := by
  obtain ⟨h1, h2, h3, h4, h5, h6, h7, h8, h9, h10, h11⟩ := ht
  simp only [applyProjUpdate, insertProjRow]
  refine ProjRow.mk.injEq .. ▸ ⟨rfl, rfl, rfl,
    providedOr_orNullStr _ h1, providedOr_orNullStr _ h2,
    providedOr_orNullStr _ h3, providedOr_orNullStr _ h4,
    providedOr_orNullStr _ h5, providedOr_orNullStr _ h6,
    ?_, providedOr_orNullStr _ h7, providedOr_orNullStr _ h8,
    providedOr_countryOrAU _ h9, providedOr_orNullStr _ h10,
    providedOr_orNullStr _ h11, ?_⟩
  · cases p.distance <;> rfl
  · cases p.call_suppressed <;> rfl

/-- Applying the same payload update twice equals applying it once. -/
theorem applyProjUpdate_idem (p : ProjPayload) (r : ProjRow) :
    applyProjUpdate p (applyProjUpdate p r) = applyProjUpdate p r := by
  simp only [applyProjUpdate]
  refine ProjRow.mk.injEq .. ▸ ⟨rfl, rfl, rfl,
    providedOr_idem .., providedOr_idem .., providedOr_idem ..,
    providedOr_idem .., providedOr_idem .., providedOr_idem ..,
    providedOr_idem .., providedOr_idem .., providedOr_idem ..,
    providedOr_idem .., providedOr_idem .., providedOr_idem .., ?_⟩
  · cases p.call_suppressed <;> rfl

/-- applyProjUpdate never changes the external id. -/
theorem applyProjUpdate_project_id (p : ProjPayload) (r : ProjRow) :
    (applyProjUpdate p r).project_id = r.project_id := rfl

/-- createCallSession on an idempotency hit returns the existing row and
leaves the state untouched. -/
theorem createCallSession_hit (db : DB) (now : Time) (inp : SessionInput)
    (freshId : Nat) (r : SessionRow)
    (hm : idempotentHit db inp.call_session_id = some r) :
    createCallSession db now inp freshId = .ok (r, db) := by
  simp [createCallSession, hm]

/-- createCallSession fails when the external project id is unknown. -/
theorem createCallSession_noProject (db : DB) (now : Time) (inp : SessionInput)
    (freshId : Nat)
    (hm : idempotentHit db inp.call_session_id = none)
    (hfp : findProject db inp.project_id = none) :
    createCallSession db now inp freshId = .error "Project not found" := by
  simp [createCallSession, hm, hfp]

/-- createCallSession on the fresh-create path: the pool-side response
SELECT cannot see the uncommitted INSERT, so for a fresh id the operation
throws and nothing is returned. -/
theorem createCallSession_freshFails (db : DB) (now : Time) (inp : SessionInput)
    (freshId : Nat) (p : ProjectRow)
    (hm : idempotentHit db inp.call_session_id = none)
    (hfp : findProject db inp.project_id = some p)
    (hfresh : db.call_sessions.find? (fun r => r.id == freshId) = none) :
    createCallSession db now inp freshId =
      .error "TypeError: response row undefined" := by
  simp [createCallSession, hm, hfp, hfresh]

/-- createCallSession on the (store-impossible) already-committed-id branch:
the committed row is returned and all four writes persist together. -/
theorem createCallSession_visible (db : DB) (now : Time) (inp : SessionInput)
    (freshId : Nat) (p : ProjectRow) (visible : SessionRow)
    (hm : idempotentHit db inp.call_session_id = none)
    (hfp : findProject db inp.project_id = some p)
    (hvis : db.call_sessions.find? (fun r => r.id == freshId) = some visible) :
    createCallSession db now inp freshId =
      .ok (visible,
        { db with
          call_sessions := db.call_sessions ++
            [mkSessionRow inp p.id (resolveContact db inp.contact_id) freshId now]
          projects := db.projects.map (applyCooldownStamp inp.project_id now)
          project_contacts :=
            match resolveContact db inp.contact_id with
            | some cid => upsertPCLastContacted db.project_contacts p.id cid now
            | none => db.project_contacts }) := by
  simp [createCallSession, hm, hfp, hvis]

/-- A successful insertTerminal only appends to the terminal_sessions
table. -/
theorem insertTerminal_ok_sessions (db : DB) (inp : TerminalInput)
    (freshId : Nat) (projRef contRef : Option Nat) (row : TerminalRow) (db2 : DB)
    (h : insertTerminal db inp freshId projRef contRef = .ok (row, db2)) :
    db2.call_sessions = db.call_sessions := by
  rw [insertTerminal] at h
  split at h
  · simp only [Except.ok.injEq, Prod.mk.injEq] at h
    obtain ⟨h1, h2⟩ := h
    rw [← h2]
  · cases h

/-! ## Claim theorems -/

/-- C1: in the state dbC1 an active GLOBAL-scope terminal session exists,
yet both the project-only path and the single-pair path report the pair as
eligible: no eligibility path ever queries the global scope, contradicting
the claim that a global terminal session forces eligible = false. -/
theorem C1_global_terminal_not_consulted :
    hasActiveTerminalSession dbC1 2000 Scope.globalScope 0 none = true ∧
    isProjectEligible dbC1 1000 2000 "p1" = ⟨true, none⟩ ∧
    isProjectContactEligible dbC1 1000 2000 "p1" 10 = ⟨true, none⟩ := by
  decide

/-- C3: for every creation input whose session id is store-fresh (no
committed row carries it), every execution of createCallSession leaves the
persisted state exactly as it was: the idempotency hit writes nothing, an
unknown project fails before the INSERT, and a fresh create throws at the
pool-side response SELECT, whereupon the ROLLBACK discards the
transaction-client INSERT before any of the three pool-side writes has run.
In particular the four writes take effect not at all whenever the operation
fails, and no state with the session recorded but the cooldown not extended
is ever observable. -/
theorem C3_create_all_or_nothing (db : DB) (now : Time) (inp : SessionInput)
    (freshId : Nat)
    (hfresh : db.call_sessions.find? (fun r => r.id == freshId) = none) :
    createCallSessionPersisted db now inp freshId = db ∧
    (idempotentHit db inp.call_session_id = none →
      ∀ p, findProject db inp.project_id = some p →
        createCallSession db now inp freshId =
          .error "TypeError: response row undefined") := by
  constructor
  · cases hm : idempotentHit db inp.call_session_id with
    | some r => simp [createCallSessionPersisted, hm]
    | none =>
      cases hfp : findProject db inp.project_id with
      | none => simp [createCallSessionPersisted, hm, hfp]
      | some p => simp [createCallSessionPersisted, hm, hfp, hfresh]
  · intro hm p hfp
    exact createCallSession_freshFails db now inp freshId p hm hfp hfresh

/-- C3 witness: on dbC3 (one project, one contact, no sessions) the fresh
create with contact 10 fails at the response read and persists nothing. -/
theorem C3_create_all_or_nothing_witness :
    createCallSessionPersisted dbC3 100 inpC3 7 = dbC3 ∧
    createCallSession dbC3 100 inpC3 7 =
      .error "TypeError: response row undefined" := by
  have h := C3_create_all_or_nothing dbC3 100 inpC3 7 (by decide)
  exact ⟨h.1, h.2 (by decide) ⟨1, "p1", false, none, none⟩ (by decide)⟩

/-- C2: the cooldown round-trip never begins — a fresh createCallSession
against the clean project p1 at time 100 throws at the pool-side response
SELECT (which cannot see the uncommitted INSERT) and rolls back, so
next_call_eligible_at is never set to now + 24h (it stays NULL and the
project remains immediately eligible), contradicting the claim that
creating a CallSession stamps the cooldown and flips the eligibility
decision. -/
theorem C2_fresh_create_never_stamps_cooldown :
    createCallSession dbC2 100 inpC2 7 =
      .error "TypeError: response row undefined" ∧
    createCallSessionPersisted dbC2 100 inpC2 7 = dbC2 ∧
    dbC2.projects.map (fun p => p.next_call_eligible_at) = [none] ∧
    isProjectEligible dbC2 0 86499 "p1" = ⟨true, none⟩ := by
  refine ⟨by rfl, by rfl, by rfl, by decide⟩

/-- C5 counterexample: on dbC5 the storage pre-filter yields the pair
(p1, contact 10), the bulk path keeps it (its fatigue call counts only the
project side), yet the single-pair path rejects the same pair at the same
state with the contact-side daily limit. -/
theorem C5_counterexample :
    getEligibleCalls dbC5 1000 2000 100 = [rowC5] ∧
    (prefilterCandidates dbC5 2000).take 100 = [rowC5] ∧
    isProjectContactEligible dbC5 1000 2000 "p1" 10 =
      ⟨false, some "Daily call limit reached"⟩ := by
  decide

/-- C6 counterexample: for the payload with `budget = some ""` the first
upsert inserts NULL (empty string is falsy under `|| null`) while the second
upsert's UPDATE writes the empty string, so upsert-twice does not reproduce
the single-upsert row. -/
theorem C6_counterexample :
    ((upsertProject ([] : List ProjRow) payloadC6 1).1).budget = none ∧
    ((upsertProject ((upsertProject ([] : List ProjRow) payloadC6 1).2) payloadC6 2).1).budget
      = some "" ∧
    (upsertProject ((upsertProject ([] : List ProjRow) payloadC6 1).2) payloadC6 2).2 ≠
      (upsertProject ([] : List ProjRow) payloadC6 1).2 := by
  decide

/-- C8: with the earlier checks passing, a project with exactly 3 sessions
today is rejected with the daily-limit reason; with exactly 2 sessions today
and a weekly count below 10 it is eligible; and given a daily count below 3,
the outcome is the weekly-limit rejection precisely when the trailing-7-day
count has reached 10. -/
theorem C8_fatigue_boundary (db : DB) (ts t : Time) (X : String) (p : ProjectRow)
    (hfind : findProject db X = some p)
    (hsup : p.call_suppressed = false)
    (hterm : hasActiveTerminalSession db t Scope.project p.id none = false)
    (hcool : cooldownActive p t = false) :
    (countSessionsByProject db p.id ts = 3 →
      isProjectEligible db ts t X = ⟨false, some "Daily call limit reached"⟩) ∧
    (countSessionsByProject db p.id ts = 2 →
      countSessionsByProject db p.id (t - 7 * 24 * hourTicks) < MAX_CALLS_PER_WEEK →
      isProjectEligible db ts t X = ⟨true, none⟩) ∧
    (countSessionsByProject db p.id ts < MAX_CALLS_PER_DAY →
      (isProjectEligible db ts t X = ⟨false, some "Weekly call limit reached"⟩ ↔
        MAX_CALLS_PER_WEEK ≤ countSessionsByProject db p.id (t - 7 * 24 * hourTicks))) := by
  refine ⟨?_, ?_, ?_⟩
  · intro hday
    simp [isProjectEligible, hfind, hsup, hterm, hcool, checkCallFatigue, hday,
      MAX_CALLS_PER_DAY]
  · intro hday hweek
    simp [isProjectEligible, hfind, hsup, hterm, hcool, checkCallFatigue, hday,
      Nat.not_le.mpr hweek, MAX_CALLS_PER_DAY]
  · intro hday
    constructor
    · intro hres
      by_contra hw
      simp [isProjectEligible, hfind, hsup, hterm, hcool, checkCallFatigue,
        Nat.not_le.mpr hday, hw] at hres
    · intro hw
      simp [isProjectEligible, hfind, hsup, hterm, hcool, checkCallFatigue,
        Nat.not_le.mpr hday, hw]

/-- C8 witness: three concrete states at todayStart 1000, query time 2000 —
three calls today block with the daily reason, two calls today pass, and two
calls today plus eight earlier within the trailing week block with the
weekly reason. -/
theorem C8_fatigue_boundary_witness :
    isProjectEligible dbC8a 1000 2000 "p1" =
      ⟨false, some "Daily call limit reached"⟩ ∧
    isProjectEligible dbC8b 1000 2000 "p1" = ⟨true, none⟩ ∧
    isProjectEligible dbC8c 1000 2000 "p1" =
      ⟨false, some "Weekly call limit reached"⟩ := by
  refine ⟨?_, ?_, ?_⟩
  · exact (C8_fatigue_boundary dbC8a 1000 2000 "p1" ⟨1, "p1", false, none, none⟩
      (by decide) (by decide) (by decide) (by decide)).1 (by decide)
  · exact (C8_fatigue_boundary dbC8b 1000 2000 "p1" ⟨1, "p1", false, none, none⟩
      (by decide) (by decide) (by decide) (by decide)).2.1 (by decide) (by decide)
  · exact ((C8_fatigue_boundary dbC8c 1000 2000 "p1" ⟨1, "p1", false, none, none⟩
      (by decide) (by decide) (by decide) (by decide)).2.2 (by decide)).mpr (by decide)

/-- C7 counterexample: a GLOBAL-scope creation input carrying a project
reference violates the scope invariant, yet the core create succeeds and
inserts a row (with the reference silently dropped) instead of rejecting the
input. -/
theorem C7_counterexample :
    createTerminalSession dbC7 inpC7 5 =
      .ok (rowC7, { dbC7 with terminal_sessions := [rowC7] }) := by
  rfl

/-- C10 counterexample: on dbC10 the request referencing unknown contact 99
does NOT insert a session with a null contact reference — the fresh create
throws at the pool-side response SELECT, rolls back, and persists no row at
all, refuting the insertion half of the claim. -/
theorem C10_counterexample :
    createCallSession dbC10 100 inpC10 7 =
      .error "TypeError: response row undefined" ∧
    createCallSessionPersisted dbC10 100 inpC10 7 = dbC10 := by
  exact ⟨by rfl, by rfl⟩

/-- C10 (amended): an unknown contact reference never produces a contact
not-found failure: resolution silently drops it (contactInternalId stays
null) and the transaction-client INSERT is attempted with a null contact
reference — but for a store-fresh id the operation then fails at the
pool-side response SELECT like every fresh create, the ROLLBACK discards the
INSERT, no session row persists and the ProjectContact stamp never runs.
An unknown project reference instead fails earlier, before the INSERT, with
the distinct project not-found error. -/
theorem C10_unknown_contact_dropped (db : DB) (now : Time) (inp : SessionInput)
    (freshId : Nat) (cid : Nat)
    (hmiss : idempotentHit db inp.call_session_id = none)
    (hcid : inp.contact_id = some cid)
    (hc : findContact db cid = none)
    (hfresh : db.call_sessions.find? (fun r => r.id == freshId) = none) :
    resolveContact db inp.contact_id = none ∧
    (∀ p, findProject db inp.project_id = some p →
      (mkSessionRow inp p.id (resolveContact db inp.contact_id) freshId now).contact_ref
        = none ∧
      createCallSession db now inp freshId =
        .error "TypeError: response row undefined" ∧
      createCallSessionPersisted db now inp freshId = db) ∧
    (findProject db inp.project_id = none →
      createCallSession db now inp freshId = .error "Project not found") := by
  have hres : resolveContact db inp.contact_id = none := by
    simp [resolveContact, hcid, hc]
  refine ⟨hres, ?_, ?_⟩
  · intro p hfp
    refine ⟨by simp [mkSessionRow, hres], ?_, ?_⟩
    · exact createCallSession_freshFails db now inp freshId p hmiss hfp hfresh
    · simp [createCallSessionPersisted, hmiss, hfp, hfresh]
  · intro hfp
    exact createCallSession_noProject db now inp freshId hmiss hfp

/-- C10 witness: contact 99 is unknown in dbC10; the attempted row carries
a null contact reference, the fresh create fails at the response read
persisting nothing, and the unknown project id fails with the project
error. -/
theorem C10_unknown_contact_dropped_witness :
    resolveContact dbC10 (some 99) = none ∧
    (mkSessionRow inpC10 1 (resolveContact dbC10 inpC10.contact_id) 7 100).contact_ref
      = none ∧
    createCallSession dbC10 100 inpC10 7 =
      .error "TypeError: response row undefined" ∧
    createCallSessionPersisted dbC10 100 inpC10 7 = dbC10 ∧
    createCallSession dbC10 100 inpC10b 7 = .error "Project not found" := by
  have h := C10_unknown_contact_dropped dbC10 100 inpC10 7 99
    (by decide) (by decide) (by decide) (by decide)
  have h2 := h.2.1 ⟨1, "p1", false, none, none⟩ (by decide)
  have h3 := (C10_unknown_contact_dropped dbC10 100 inpC10b 7 99
    (by decide) (by decide) (by decide) (by decide)).2.2 (by decide)
  exact ⟨h.1, h2.1, h2.2.1, h2.2.2, h3⟩

/-- C6 (amended): project upsert run twice is idempotent — same final table
as a single run, identical returned row (hence the same internal key), and
exactly one row for the external id — for every payload whose provided
optional string fields are non-empty (so the INSERT-side `|| null`
coercions are the identity), starting from any table holding at most one row
for that external id. -/
theorem C6_upsert_idempotent_truthy (tbl : List ProjRow) (p : ProjPayload)
    (f1 f2 : Nat)
    (hcount : countExt tbl p.project_id ≤ 1)
    (ht : truthyProjPayload p) :
    (upsertProject (upsertProject tbl p f1).2 p f2).2 = (upsertProject tbl p f1).2 ∧
    (upsertProject (upsertProject tbl p f1).2 p f2).1 = (upsertProject tbl p f1).1 ∧
    countExt (upsertProject (upsertProject tbl p f1).2 p f2).2 p.project_id = 1 := by
  cases h : tbl.find? (fun r => r.project_id == p.project_id) with
  | none =>
    have hfirst1 : (upsertProject tbl p f1).1 = insertProjRow p f1 := by
      simp [upsertProject, h]
    have hfirst2 : (upsertProject tbl p f1).2 = tbl ++ [insertProjRow p f1] := by
      simp [upsertProject, h]
    have hnotbl : ∀ x ∈ tbl, (x.project_id == p.project_id) = false := by
      intro x hx
      have := List.find?_eq_none.mp h x hx
      simpa using this
    have hrowpred : ((insertProjRow p f1).project_id == p.project_id) = true := by
      simp [insertProjRow]
    have hfind2 : (tbl ++ [insertProjRow p f1]).find?
        (fun r => r.project_id == p.project_id) = some (insertProjRow p f1) := by
      rw [find?_append_eq,
        List.find?_eq_none.mpr (fun x hx => by simp [hnotbl x hx])]
      show List.find? (fun r => r.project_id == p.project_id)
        [insertProjRow p f1] = some (insertProjRow p f1)
      exact List.find?_cons_of_pos _ hrowpred
    have hsecond1 : (upsertProject (tbl ++ [insertProjRow p f1]) p f2).1 =
        applyProjUpdate p (insertProjRow p f1) := by
      simp [upsertProject, hfind2]
    have hsecond2 : (upsertProject (tbl ++ [insertProjRow p f1]) p f2).2 =
        (tbl ++ [insertProjRow p f1]).map (projUpdateRow p) := by
      simp [upsertProject, hfind2]
    have hmapfix : (tbl ++ [insertProjRow p f1]).map (projUpdateRow p) =
        tbl ++ [insertProjRow p f1] := by
      rw [List.map_append]
      congr 1
      · exact map_eq_self_of_fix _ _
          (fun x hx => by simp [projUpdateRow, hnotbl x hx])
      · simp [projUpdateRow, hrowpred, applyProjUpdate_insert_fixed p f1 ht]
    refine ⟨?_, ?_, ?_⟩
    · rw [hfirst2, hsecond2, hmapfix]
    · rw [hfirst2, hfirst1, hsecond1, applyProjUpdate_insert_fixed p f1 ht]
    · rw [hfirst2, hsecond2, hmapfix, countExt, List.filter_append,
        List.length_append, filter_eq_nil_of_find?_eq_none tbl _ h]
      simp [hrowpred]
  | some r =>
    have hpredr := List.find?_some h
    have hfirst1 : (upsertProject tbl p f1).1 = applyProjUpdate p r := by
      simp [upsertProject, h]
    have hfirst2 : (upsertProject tbl p f1).2 = tbl.map (projUpdateRow p) := by
      simp [upsertProject, h]
    have hgpres : ∀ x : ProjRow, (projUpdateRow p x).project_id = x.project_id := by
      intro x
      by_cases hx : (x.project_id == p.project_id) = true <;>
        simp [projUpdateRow, hx, applyProjUpdate_project_id]
    have hfind2 : (tbl.map (projUpdateRow p)).find?
        (fun x => x.project_id == p.project_id) = some (projUpdateRow p r) := by
      rw [find?_map_key_pres tbl (projUpdateRow p)
        (fun x => x.project_id) p.project_id hgpres, h]
      rfl
    have hgr : projUpdateRow p r = applyProjUpdate p r := by
      simp [projUpdateRow, hpredr]
    have hsecond1 : (upsertProject (tbl.map (projUpdateRow p)) p f2).1 =
        applyProjUpdate p (projUpdateRow p r) := by
      simp [upsertProject, hfind2]
    have hsecond2 : (upsertProject (tbl.map (projUpdateRow p)) p f2).2 =
        (tbl.map (projUpdateRow p)).map (projUpdateRow p) := by
      simp [upsertProject, hfind2]
    have hmapfix : (tbl.map (projUpdateRow p)).map (projUpdateRow p) =
        tbl.map (projUpdateRow p) := by
      refine map_eq_self_of_fix _ _ ?_
      intro y hy
      obtain ⟨x, hx, rfl⟩ := List.mem_map.mp hy
      by_cases hpx : (x.project_id == p.project_id) = true
      · have : projUpdateRow p x = applyProjUpdate p x := by
          simp [projUpdateRow, hpx]
        rw [this]
        have hpx2 : ((applyProjUpdate p x).project_id == p.project_id) = true := by
          rw [applyProjUpdate_project_id]
          exact hpx
        simp [projUpdateRow, hpx2, applyProjUpdate_idem]
      · have : projUpdateRow p x = x := by simp [projUpdateRow, hpx]
        rw [this]
        simp [projUpdateRow, hpx]
    have hcount1 : countExt tbl p.project_id = 1 := by
      have hge : 1 ≤ countExt tbl p.project_id := by
        have hrmem : r ∈ tbl.filter (fun x => x.project_id == p.project_id) :=
          List.mem_filter.mpr ⟨List.mem_of_find?_eq_some h, hpredr⟩
        exact List.length_pos.mpr (fun e => by rw [e] at hrmem; cases hrmem)
      exact Nat.le_antisymm hcount hge
    have hcountmap : ∀ l : List ProjRow,
        countExt (l.map (projUpdateRow p)) p.project_id = countExt l p.project_id := by
      intro l
      exact filter_length_map_key_pres l (projUpdateRow p)
        (fun x => x.project_id) p.project_id hgpres
    refine ⟨?_, ?_, ?_⟩
    · rw [hfirst2, hsecond2, hmapfix]
    · rw [hfirst2, hfirst1, hsecond1, hgr, applyProjUpdate_idem]
    · rw [hfirst2, hsecond2, hmapfix, hcountmap, hcount1]

/-- C6 witness: the truthy payload upserted twice from the empty table. -/
theorem C6_upsert_idempotent_truthy_witness :
    (upsertProject (upsertProject ([] : List ProjRow) payloadC6w 1).2 payloadC6w 2).2 =
      (upsertProject ([] : List ProjRow) payloadC6w 1).2 ∧
    (upsertProject (upsertProject ([] : List ProjRow) payloadC6w 1).2 payloadC6w 2).1 =
      (upsertProject ([] : List ProjRow) payloadC6w 1).1 ∧
    countExt (upsertProject (upsertProject ([] : List ProjRow) payloadC6w 1).2 payloadC6w 2).2
      payloadC6w.project_id = 1 := by
  exact C6_upsert_idempotent_truthy [] payloadC6w 1 2 (by decide)
    (by unfold truthyProjPayload; decide)

/-- C7 (amended): for inputs past the idempotency short-circuit, a
project-scope input without a truthy project reference and a contact-scope
input without a contact reference are rejected (the INSERT violates the
scope CHECK constraint and nothing persists), and a project-scope input
whose referenced project does not exist is rejected; but a GLOBAL-scope
input is accepted whatever references it carries: they are dropped during
resolution and a scope-consistent row is inserted. -/
theorem C7_scope_validation (db : DB) (inp : TerminalInput) (freshId : Nat)
    (hmiss : (if isTruthyStr inp.terminal_id then
      db.terminal_sessions.find? (fun t => t.terminal_id == inp.terminal_id)
    else none) = none) :
    (inp.scope = Scope.project → isTruthyStr inp.project_id = false →
      createTerminalSession db inp freshId =
        .error "terminal_sessions_scope_check violation") ∧
    (inp.scope = Scope.contact → inp.contact_id = none →
      createTerminalSession db inp freshId =
        .error "terminal_sessions_scope_check violation") ∧
    (inp.scope = Scope.project → isTruthyStr inp.project_id = true →
      findProject db (inp.project_id.getD "") = none →
      createTerminalSession db inp freshId = .error "Project not found") ∧
    (inp.scope = Scope.globalScope →
      ∃ row db2, createTerminalSession db inp freshId = .ok (row, db2) ∧
        row.project_ref = none ∧ row.contact_ref = none ∧
        db2.terminal_sessions = db.terminal_sessions ++ [row]) := by
  refine ⟨?_, ?_, ?_, ?_⟩
  · intro hs hp
    simp [createTerminalSession, hmiss, hs, hp, insertTerminal,
      terminalContactRef, scopeCheckOK]
  · intro hs hc
    simp [createTerminalSession, hmiss, hs, hc, insertTerminal,
      terminalContactRef, scopeCheckOK]
  · intro hs hp hfp
    simp [createTerminalSession, hmiss, hs, hp, hfp]
  · intro hs
    refine ⟨{ id := freshId, terminal_id := orNullStr inp.terminal_id
              scope := inp.scope, project_ref := none, contact_ref := none
              reason := inp.reason, created_by := inp.created_by.getD "system"
              expires_at := inp.expires_at
              override_allowed := inp.override_allowed.getD false },
      { db with terminal_sessions := db.terminal_sessions ++
          [{ id := freshId, terminal_id := orNullStr inp.terminal_id
             scope := inp.scope, project_ref := none, contact_ref := none
             reason := inp.reason, created_by := inp.created_by.getD "system"
             expires_at := inp.expires_at
             override_allowed := inp.override_allowed.getD false }] },
      ?_, rfl, rfl, rfl⟩
    simp [createTerminalSession, hmiss, hs, insertTerminal, terminalContactRef,
      scopeCheckOK]

/-- C5 (amended): for every candidate produced by the storage pre-filter
(with the schema uniqueness constraints on external project ids, contact
ids, and (project, contact) association pairs), membership in the bulk
result coincides with the single-pair decision path with its contact-side
fatigue check removed — the bulk re-validation applies the project-scope and
contact-scope terminal checks and the project-side fatigue count, but its
fatigue call with both ids counts only the project side, and the pair-scoped
terminal check of the single path coincides with the plain project-scope
check because the contact filter argument is ignored. -/
theorem C5_bulk_equals_single_sans_contact_fatigue
    (db : DB) (ts now : Time) (limit : Nat) (row : EligibleCall)
    (hproj : (db.projects.map (fun x => x.project_id)).Nodup)
    (hcont : (db.contacts.map (fun x => x.id)).Nodup)
    (hpc : (db.project_contacts.map (fun x => (x.project_ref, x.contact_ref))).Nodup)
    (hrow : row ∈ (prefilterCandidates db now).take limit) :
    (row ∈ getEligibleCalls db ts now limit ↔
      isProjectContactEligibleSansContactFatigue db ts now
        row.project_id row.contact_id = true) := by
  have hpre : row ∈ prefilterCandidates db now := List.mem_of_mem_take hrow
  simp only [prefilterCandidates, List.mem_flatMap, List.mem_filterMap] at hpre
  obtain ⟨p, hp, pc, hpcm, c, hcm, hcond⟩ := hpre
  split at hcond
  case isFalse => cases hcond
  case isTrue hcnd =>
  injection hcond with heq
  subst heq
  simp only [Bool.and_eq_true] at hcnd
  obtain ⟨⟨⟨⟨⟨⟨hb1, hb2⟩, hb3⟩, hb4⟩, hb5⟩, hb6⟩, hb7⟩ := hcnd
  have hsup : p.call_suppressed = false := by simpa using hb3
  have hdnc : c.do_not_call = false := by simpa using hb4
  have hsuppc : pc.suppress_for_project = false := by simpa using hb5
  have hcool : cooldownActive p now = false := by simpa using hb6
  have hfp : findProject db p.project_id = some p := by
    apply find?_eq_some_of_nodup_key db.projects (fun x => x.project_id) _ p hp
      (by simp) ?_ hproj
    intro x hx
    exact eq_of_beq hx
  have hfc : findContact db c.id = some c := by
    apply find?_eq_some_of_nodup_key db.contacts (fun x => x.id) _ c hcm
      (by simp) ?_ hcont
    intro x hx
    exact eq_of_beq hx
  have hfpc : db.project_contacts.find?
      (fun x => x.project_ref == p.id && x.contact_ref == c.id) = some pc := by
    apply find?_eq_some_of_nodup_key db.project_contacts
      (fun x => (x.project_ref, x.contact_ref)) _ pc hpcm
      (by simp [hb1, hb2]) ?_ hpc
    intro x hx
    simp only [Bool.and_eq_true] at hx
    obtain ⟨hx1, hx2⟩ := hx
    show (x.project_ref, x.contact_ref) = (pc.project_ref, pc.contact_ref)
    rw [eq_of_beq hx1, eq_of_beq hx2, eq_of_beq hb1, eq_of_beq hb2]
  have hpcsup : pcSuppressed db (some p.project_id) c.id = false := by
    simp [pcSuppressed, hfp, hfpc, hsuppc]
  have hpair : hasActiveTerminalSession db now Scope.project p.id (some c.id) =
      hasActiveTerminalSession db now Scope.project p.id none := rfl
  have hfat : checkCallFatigue db ts now (some p.id) (some c.id) =
      checkCallFatigue db ts now (some p.id) none := rfl
  have hmem : ((⟨p.project_id, c.id, c.phone.getD ""⟩ : EligibleCall) ∈
      getEligibleCalls db ts now limit) ↔
      bulkRevalidate db ts now ⟨p.project_id, c.id, c.phone.getD ""⟩ = true := by
    rw [getEligibleCalls, List.mem_filter]
    simp [hrow]
  rw [hmem]
  by_cases hA : hasActiveTerminalSession db now Scope.project p.id none = true
  <;> by_cases hB : hasActiveTerminalSession db now Scope.contact c.id none = true
  <;> by_cases hF : (checkCallFatigue db ts now (some p.id) none).allowed = true
  <;> simp [bulkRevalidate, isProjectContactEligibleSansContactFatigue,
        contactChecksSansFatigue, isProjectEligible, hfp, hfc, hsup, hdnc,
        hcool, hpcsup, hpair, hfat, hA, hB, hF]

/-- C5 witness: the amended equivalence instantiated on dbC5 and its
pre-filter candidate (p1, contact 10). -/
theorem C5_bulk_equals_single_sans_contact_fatigue_witness :
    rowC5 ∈ getEligibleCalls dbC5 1000 2000 100 ↔
      isProjectContactEligibleSansContactFatigue dbC5 1000 2000 "p1" 10 = true := by
  exact C5_bulk_equals_single_sans_contact_fatigue dbC5 1000 2000 100 rowC5
    (by decide) (by decide) (by decide) (by decide)

/-- C9: the session ledger is append-only and updates are framed.  A
successful updateCallSession leaves the (project_ref, contact_ref,
started_at) projection of every row unchanged (whitelisted fields only) and
preserves every per-project row count; a successful createCallSession and
every (possibly interrupted) persisted execution of it can only grow the
per-project counts; and createTerminalSession never touches the
call_sessions table. -/
theorem C9_ledger_frame :
    (∀ db sid u db2, updateCallSession db sid u = .ok db2 →
      db2.call_sessions.map sessionKeyFields =
        db.call_sessions.map sessionKeyFields ∧
      ∀ pid, countProjSessions db2 pid = countProjSessions db pid) ∧
    (∀ db now inp freshId row db2,
      createCallSession db now inp freshId = .ok (row, db2) →
      ∀ pid, countProjSessions db pid ≤ countProjSessions db2 pid) ∧
    (∀ db now inp freshId pid,
      countProjSessions db pid ≤
        countProjSessions (createCallSessionPersisted db now inp freshId) pid) ∧
    (∀ db inp freshId row db2, createTerminalSession db inp freshId = .ok (row, db2) →
      db2.call_sessions = db.call_sessions) := by
  have hpres : ∀ sid u r,
      sessionKeyFields (if r.id == sid then applySessionUpdate u r else r) =
        sessionKeyFields r := by
    intro sid u r
    by_cases h : (r.id == sid) = true <;>
      simp [h, sessionKeyFields, applySessionUpdate]
  have hpref : ∀ sid u r,
      (if r.id == sid then applySessionUpdate u r else r).project_ref =
        r.project_ref := by
    intro sid u r
    by_cases h : (r.id == sid) = true <;> simp [h, applySessionUpdate]
  refine ⟨?_, ?_, ?_, ?_⟩
  · intro db sid u db2 h
    rw [updateCallSession] at h
    split at h
    · cases h
    · split at h
      · cases h
      · obtain hdb2 := (Except.ok.injEq ..) ▸ h
        rw [← hdb2]
        constructor
        · exact map_map_eq_of_pres _ _ _ (hpres sid u)
        · intro pid
          exact filter_length_map_key_pres _ _
            (fun (r : SessionRow) => r.project_ref) pid (hpref sid u)
  · intro db now inp freshId row db2 h pid
    cases hm : idempotentHit db inp.call_session_id with
    | some r =>
      rw [createCallSession_hit db now inp freshId r hm] at h
      simp only [Except.ok.injEq, Prod.mk.injEq] at h
      obtain ⟨h1, h2⟩ := h
      rw [← h2]
    | none =>
      cases hfp : findProject db inp.project_id with
      | none =>
        rw [createCallSession_noProject db now inp freshId hm hfp] at h
        cases h
      | some p =>
        cases hvis : db.call_sessions.find? (fun r => r.id == freshId) with
        | none =>
          rw [createCallSession_freshFails db now inp freshId p hm hfp hvis] at h
          cases h
        | some v =>
          rw [createCallSession_visible db now inp freshId p v hm hfp hvis] at h
          simp only [Except.ok.injEq, Prod.mk.injEq] at h
          obtain ⟨h1, h2⟩ := h
          rw [← h2]
          simp only [countProjSessions]
          rw [List.filter_append, List.length_append]
          exact Nat.le_add_right _ _
  · intro db now inp freshId pid
    cases hm : idempotentHit db inp.call_session_id with
    | some r => simp [createCallSessionPersisted, hm]
    | none =>
      cases hfp : findProject db inp.project_id with
      | none => simp [createCallSessionPersisted, hm, hfp]
      | some p =>
        cases hvis : db.call_sessions.find? (fun r => r.id == freshId) with
        | none => simp [createCallSessionPersisted, hm, hfp, hvis]
        | some v =>
          simp only [createCallSessionPersisted, hm, hfp, hvis, countProjSessions]
          rw [List.filter_append, List.length_append]
          exact Nat.le_add_right _ _
  · intro db inp freshId row db2 h
    rw [createTerminalSession] at h
    split at h
    · simp only [Except.ok.injEq, Prod.mk.injEq] at h
      obtain ⟨h1, h2⟩ := h
      rw [← h2]
    · split at h
      · split at h
        · exact insertTerminal_ok_sessions _ _ _ _ _ _ _ h
        · cases h
      · exact insertTerminal_ok_sessions _ _ _ _ _ _ _ h

/-- C9 witness: the update frame on dbC9 (row 301 updated in place), the
monotone counts for a concrete create and a concrete interrupted create,
and the terminal-create frame on dbC7. -/
theorem C9_ledger_frame_witness :
    dbC9after.call_sessions.map sessionKeyFields =
      dbC9.call_sessions.map sessionKeyFields ∧
    countProjSessions dbC9after 1 = countProjSessions dbC9 1 ∧
    countProjSessions dbC9b 1 ≤ countProjSessions dbC9b 1 ∧
    countProjSessions dbC3 1 ≤
      countProjSessions (createCallSessionPersisted dbC3 100 inpC3 7) 1 ∧
    ({ dbC7 with terminal_sessions := [rowC7] } : DB).call_sessions =
      dbC7.call_sessions := by
  refine ⟨?_, ?_, ?_, ?_, ?_⟩
  · exact (C9_ledger_frame.1 dbC9 301 updC9 dbC9after (by rfl)).1
  · exact (C9_ledger_frame.1 dbC9 301 updC9 dbC9after (by rfl)).2 1
  · exact C9_ledger_frame.2.1 dbC9b 100 inpC9b 9 rowC9b dbC9b (by rfl) 1
  · exact C9_ledger_frame.2.2.1 dbC3 100 inpC3 7 1
  · exact C9_ledger_frame.2.2.2 dbC7 inpC7 5 rowC7
      { dbC7 with terminal_sessions := [rowC7] } (by rfl)

/-- C4: when the payload carries a truthy external contact id that resolves
to row A, the upsert updates exactly the row(s) with A's internal id in
place and inserts nothing, returns the updated A, and any row with a
different internal id — in particular a row matching the payload's phone —
is left in the table completely unchanged. -/
theorem C4_contact_resolution_precedence
    (tbl : List ContactFullRow) (c : ContactPayload) (freshId : Nat)
    (A B : ContactFullRow)
    (htr : isTruthyStr c.contact_id = true)
    (hA : tbl.find? (fun r => r.contact_id == c.contact_id) = some A)
    (hB : B ∈ tbl) (hBA : B.id ≠ A.id) :
    (upsertContact tbl c freshId).1 = applyContactUpdate c A ∧
    (upsertContact tbl c freshId).2 = tbl.map (contactUpdateRow c A.id) ∧
    B ∈ (upsertContact tbl c freshId).2 ∧
    (upsertContact tbl c freshId).2.length = tbl.length := by
  have hlook : lookupContact tbl c = some A := by
    simp [lookupContact, htr, hA]
  have hmap : (upsertContact tbl c freshId).2 = tbl.map (contactUpdateRow c A.id) := by
    simp [upsertContact, hlook]
  refine ⟨by simp [upsertContact, hlook], hmap, ?_, by simp [upsertContact, hlook]⟩
  rw [hmap]
  have hfix : contactUpdateRow c A.id B = B := by
    simp [contactUpdateRow, beq_eq_false_iff_ne.mpr hBA]
  exact hfix ▸ List.mem_map_of_mem _ hB

/-- C4 witness: payload matching row A by external id and row B by phone,
with B first in the table; A is updated, B survives unchanged. -/
theorem C4_contact_resolution_precedence_witness :
    (upsertContact tblC4 payloadC4 9).1 = applyContactUpdate payloadC4 rowA4 ∧
    (upsertContact tblC4 payloadC4 9).2 =
      tblC4.map (contactUpdateRow payloadC4 rowA4.id) ∧
    rowB4 ∈ (upsertContact tblC4 payloadC4 9).2 ∧
    (upsertContact tblC4 payloadC4 9).2.length = tblC4.length := by
  exact C4_contact_resolution_precedence tblC4 payloadC4 9 rowA4 rowB4
    (by decide) (by decide) (by decide) (by decide)

/-- C7 witness: the three rejection branches and the global-acceptance
branch instantiated on dbC7. -/
theorem C7_scope_validation_witness :
    createTerminalSession dbC7 inpC7a 5 =
      .error "terminal_sessions_scope_check violation" ∧
    createTerminalSession dbC7 inpC7b 5 =
      .error "terminal_sessions_scope_check violation" ∧
    ∃ row db2, createTerminalSession dbC7 inpC7 5 = .ok (row, db2) ∧
      row.project_ref = none ∧ row.contact_ref = none ∧
      db2.terminal_sessions = dbC7.terminal_sessions ++ [row] := by
  refine ⟨?_, ?_, ?_⟩
  · exact (C7_scope_validation dbC7 inpC7a 5 (by decide)).1 rfl (by decide)
  · exact (C7_scope_validation dbC7 inpC7b 5 (by decide)).2.1 rfl (by decide)
  · exact (C7_scope_validation dbC7 inpC7 5 (by decide)).2.2.2 rfl

end CRM
